import Mathlib

/-!
# Verification of the candidate-pipeline orchestrator

A shallow embedding, in Lean 4, of the keyword/candidate pipeline of the
AI-Site repository (files `src/automation/pipeline/index.js`,
`src/automation/lib/slugify.js`, `src/automation/collector/index.js`,
`src/automation/researcher/index.js`, `src/automation/generator/index.js`,
`src/automation/config/constants.js`), together with theorems settling the
specification claims about fuzzy deduplication, queue management, admission
control, generation retry bounds and the orchestrator run loop.

Modelling conventions:
* JavaScript strings are modelled by `String` / `List Char`.  String indexing
  and `.length` are modelled on code points; all concrete inputs considered
  here are ASCII, where this coincides with JavaScript's UTF-16 view.
* Unicode NFKD normalization (step 1 of `slugify`) is the identity on ASCII
  and is modelled as the identity.
* JavaScript floating-point arithmetic in `calculateSimilarity` is modelled
  by exact rational arithmetic over `ℚ`.
* Timestamps (`Date.getTime()` milliseconds) are modelled by `Int`.
* External calls (the OpenAI completion, the article-draft request) are
  modelled as explicit oracle arguments of type `Except String _`.
-/

namespace AISite

/- ===================================================================
   §1  Character classes and string helpers
   (shared regex character classes of pipeline/index.js and slugify.js)
   =================================================================== -/

/-- JavaScript `\s` (whitespace), restricted to the whitespace characters
that occur in this repository's data. -/
def isJsWhitespace (c : Char) : Bool :=
  c = ' ' || c = '\t' || c = '\n' || c = '\r'

/-- The quotation characters removed by `sanitizeKeyword`
(regex `["“”'「」『』]` in `pipeline/index.js`), written via code points. -/
def sanitizeQuoteChars : List Char :=
  [Char.ofNat 34, Char.ofNat 8220, Char.ofNat 8221, Char.ofNat 39,
   Char.ofNat 12300, Char.ofNat 12301, Char.ofNat 12302, Char.ofNat 12303]

/-- The trailing punctuation removed by `sanitizeKeyword`
(regex `[、。…!！?？・]+$` in `pipeline/index.js`), written via code points. -/
def trailingPunctChars : List Char :=
  [Char.ofNat 12289, Char.ofNat 12290, Char.ofNat 8230, Char.ofNat 33,
   Char.ofNat 65281, Char.ofNat 63, Char.ofNat 65311, Char.ofNat 12539]

/-- JavaScript `\w`: `[A-Za-z0-9_]`. -/
def isWordChar (c : Char) : Bool :=
  ('a' ≤ c && c ≤ 'z') || ('A' ≤ c && c ≤ 'Z') || ('0' ≤ c && c ≤ '9') || c = '_'

/-- `.replace(/\s+/g, ' ')`: collapse every maximal whitespace run into a
single space.  The boolean flag records whether the previous character was
part of a whitespace run. -/
def collapseWs : List Char → Bool → List Char
  | [], _ => []
  | c :: rest, prevWs =>
    if isJsWhitespace c then
      if prevWs then collapseWs rest true else ' ' :: collapseWs rest true
    else c :: collapseWs rest false

/-- `.trim()`: drop leading and trailing whitespace. -/
def trimWs (cs : List Char) : List Char :=
  ((cs.dropWhile isJsWhitespace).reverse.dropWhile isJsWhitespace).reverse

/-- `.replace(/[、。…!！?？・]+$/g, '')`: drop the maximal trailing run of
listed punctuation characters. -/
def stripTrailingPunct (cs : List Char) : List Char :=
  (cs.reverse.dropWhile (fun c => trailingPunctChars.contains c)).reverse

/-- Separator class of `slugify` step 3 (regex `[\s_-]+`). -/
def isSlugSep (c : Char) : Bool :=
  isJsWhitespace c || c = '_' || c = '-'

/-- `.replace(/[\s_-]+/g, '-')`: collapse every maximal separator run into a
single hyphen. -/
def collapseSep : List Char → Bool → List Char
  | [], _ => []
  | c :: rest, prevSep =>
    if isSlugSep c then
      if prevSep then collapseSep rest true else '-' :: collapseSep rest true
    else c :: collapseSep rest false

/-- `.replace(/^-+|-+$/g, '')`: drop leading and trailing hyphen runs. -/
def stripEdgeHyphens (cs : List Char) : List Char :=
  ((cs.dropWhile (fun c => c = '-')).reverse.dropWhile (fun c => c = '-')).reverse

/- ===================================================================
   §2  slugify (src/automation/lib/slugify.js)
   =================================================================== -/

/-- The character-level pipeline of `slugify`: remove `[^\w\s-]`, trim,
unify separators to hyphens, strip edge hyphens, lower-case.
(NFKD normalization, the identity on ASCII, is modelled as the identity.) -/
def slugifyChars (cs : List Char) : List Char :=
  (stripEdgeHyphens
    (collapseSep
      (trimWs (cs.filter (fun c => isWordChar c || isJsWhitespace c || c = '-')))
      false)).map Char.toLower

/-- `slugify(value, fallback)` from `lib/slugify.js`: falsy input or an empty
result yields the fallback. -/
def slugify (value fallback : String) : String :=
  if value = "" then fallback
  else
    let r := slugifyChars value.toList
    if r = [] then fallback else String.mk r

/- ===================================================================
   §3  sanitizeKeyword (src/automation/pipeline/index.js)
   =================================================================== -/

/-- `sanitizeKeyword`: strip quotation marks, collapse whitespace, strip
trailing punctuation, trim, cap at 80 characters.  Non-string/falsy input
maps to the empty string. -/
def sanitizeKeyword (value : String) : String :=
  if value = "" then ""
  else
    String.mk
      ((trimWs (stripTrailingPunct
        (collapseWs
          (value.toList.filter (fun c => !(sanitizeQuoteChars.contains c)))
          false))).take 80)

/- ===================================================================
   §4  Levenshtein distance
   Source side: the dynamic-programming matrix of `calculateSimilarity`
   (src/automation/pipeline/index.js, lines 89-112).
   Reference side: the textbook recurrence `lev`, shown below to agree
   with Mathlib's `levenshtein` under the default cost structure.
   =================================================================== -/

/-- Substitution cost: `s1[i-1] === s2[j-1] ? 0 : 1`. -/
def levCost (x y : Char) : Nat := if x = y then 0 else 1

/-- Reference Levenshtein distance, by the standard head recurrence
(delete / insert / substitute, unit costs). -/
def lev : List Char → List Char → Nat
  | [], ys => ys.length
  | x :: xs, [] => (x :: xs).length
  | x :: xs, y :: ys =>
    min (lev xs (y :: ys) + 1)
      (min (lev (x :: xs) ys + 1) (lev xs ys + levCost x y))
termination_by xs ys => xs.length + ys.length
decreasing_by all_goals simp +arith

/-- The DP matrix of `calculateSimilarity`: `levMatrix s1 s2 i j` is the
entry `matrix[i][j]`.  The three recursive calls and the cost term are read
off the assignment
`matrix[i][j] = Math.min(matrix[i-1][j] + 1, matrix[i][j-1] + 1, matrix[i-1][j-1] + cost)`
with `cost` comparing `s1[i-1]` and `s2[j-1]`, and the borders are the
initializations `matrix[i] = [i]`, `matrix[0][j] = j`. -/
def levMatrix (s1 s2 : List Char) : Nat → Nat → Nat
  | 0, j => j
  | i + 1, 0 => i + 1
  | i + 1, j + 1 =>
    min (levMatrix s1 s2 i (j + 1) + 1)
      (min (levMatrix s1 s2 (i + 1) j + 1)
        (levMatrix s1 s2 i j + levCost (s1.getD i ' ') (s2.getD j ' ')))
termination_by i j => (i, j)

/-- `calculateSimilarity` (pipeline/index.js): `1 - distance / maxLen`,
with result `1.0` for two empty strings.  Floating point is modelled by ℚ. -/
def calculateSimilarity (s1 s2 : List Char) : ℚ :=
  if max s1.length s2.length = 0 then 1
  else 1 - (levMatrix s1 s2 s1.length s2.length : ℚ) / (max s1.length s2.length : ℚ)

/- ===================================================================
   §5  Keyword queue (pipeline/index.js, collector/index.js, constants.js)
   =================================================================== -/

/-- `KEYWORDS.QUEUE_LIMIT` (config/constants.js). -/
def QUEUE_LIMIT : Nat := 40

/-- `KEYWORDS.SKIP_COLLECTOR_THRESHOLD` (config/constants.js). -/
def SKIP_COLLECTOR_THRESHOLD : Nat := 20

/-- `GENERATOR.DEDUPE_WINDOW_DAYS` (config/constants.js). -/
def DEDUPE_WINDOW_DAYS : Nat := 5

/-- The trimming step shared by `consumeKeyword` and `requeueKeyword`:
`if (limit > 0 && queue.length > limit) queue = queue.slice(0, limit)`. -/
def trimQueueWith (limit : Nat) (queue : List String) : List String :=
  if 0 < limit ∧ limit < queue.length then queue.take limit else queue

/-- The fuzzy branch of the duplicate check inside `consumeKeyword`
(pipeline/index.js lines 155-161): both slugs strictly longer than 5
characters and similarity strictly above `0.8`. -/
def fuzzySlugDuplicate (itemSlug existing : String) : Bool :=
  if 5 < itemSlug.length ∧ 5 < existing.length then
    decide ((4 : ℚ) / 5 < calculateSimilarity itemSlug.toList existing.toList)
  else false

/-- The full per-existing-slug duplicate check of `consumeKeyword`:
exact slug equality, then the fuzzy similarity check. -/
def isDuplicateAgainst (existing itemSlug : String) : Bool :=
  if existing = itemSlug then true else fuzzySlugDuplicate itemSlug existing

/-- A queue entry after sanitization and slugification. -/
structure NormalizedKeyword where
  value : String
  slug : String
deriving DecidableEq

/-- The normalization pass of `consumeKeyword`: sanitize each entry, slugify
it, and drop entries that are empty or whose slug was already seen. -/
def normalizeQueue : List String → List String → List NormalizedKeyword
  | [], _ => []
  | entry :: rest, seen =>
    let cleaned := sanitizeKeyword entry
    if cleaned = "" then normalizeQueue rest seen
    else
      let slug := slugify cleaned "keyword"
      if slug = "" || seen.contains slug then normalizeQueue rest seen
      else ⟨cleaned, slug⟩ :: normalizeQueue rest (slug :: seen)

/-- The selection loop of `consumeKeyword`: pick the first entry that is not
a duplicate of an existing article slug; keep later non-duplicates in the
remaining queue; drop duplicates. -/
def pickLoop (existingSlugs : List String) :
    List NormalizedKeyword → Option String → Option String × List String
  | [], picked => (picked, [])
  | item :: rest, picked =>
    let isDup := existingSlugs.any (fun ex => isDuplicateAgainst ex item.slug)
    if !isDup && picked.isNone then
      pickLoop existingSlugs rest (some item.value)
    else if !isDup then
      let r := pickLoop existingSlugs rest picked
      (r.1, item.value :: r.2)
    else
      pickLoop existingSlugs rest picked

/-- `consumeKeyword` (pipeline/index.js lines 120-184), as a pure function of
the stored queue and the existing article slugs.  `none` models the thrown
`Error` when no eligible keyword remains; otherwise the picked keyword and
the rewritten queue are returned. -/
def consumeKeyword (queue existingSlugs : List String) : Option (String × List String) :=
  let trimmed := trimQueueWith QUEUE_LIMIT queue
  let normalized := normalizeQueue trimmed []
  match pickLoop existingSlugs normalized none with
  | (none, _) => none
  | (some picked, remaining) => some (picked, remaining)

/-- The enqueue loop of `enqueueKeywords` (collector/index.js lines 127-151):
append each new keyword to the end of the queue unless its slug collides with
a queue entry or an existing article slug. -/
def enqueueLoop (articleSlugs : List String) :
    List String → List String → List String → List String
  | [], queue, _ => queue
  | kw :: rest, queue, existingSlugs =>
    if kw = "" then enqueueLoop articleSlugs rest queue existingSlugs
    else
      let slug := slugify kw "keyword"
      if slug = "" || existingSlugs.contains slug || articleSlugs.contains slug then
        enqueueLoop articleSlugs rest queue existingSlugs
      else
        enqueueLoop articleSlugs rest (queue ++ [kw]) (slug :: existingSlugs)

/-- `enqueueKeywords` (collector/index.js): the updated queue.  Note the
survivors are appended at the tail; no trimming happens here. -/
def enqueueKeywords (queue articleSlugs keywords : List String) : List String :=
  enqueueLoop articleSlugs keywords queue (queue.map (fun k => slugify k "keyword"))

/-- `requeueKeyword` (pipeline/index.js lines 190-211): sanitize, skip when
already present by slug, otherwise `unshift` to the front and trim the tail
at the queue limit. -/
def requeueKeyword (queue : List String) (value : String) : List String :=
  let cleaned := sanitizeKeyword value
  if cleaned = "" then queue
  else
    let slug := slugify cleaned "keyword"
    if (queue.map (fun k => slugify k "keyword")).contains slug then queue
    else trimQueueWith QUEUE_LIMIT (cleaned :: queue)

/- ===================================================================
   §6  Candidates, pipeline state, admission control
   =================================================================== -/

/-- Candidate lifecycle states (README of researcher/generator stages). -/
inductive CandidateStatus where
  | collected
  | researched
  | generated
  | published
  | skipped
  | failed
deriving DecidableEq

/-- A candidate record, restricted to the fields the claims touch. -/
structure Candidate where
  id : String
  status : CandidateStatus
  skipReason : Option String := none
  failReason : Option String := none
deriving DecidableEq

/-- The persistent state visible to the orchestrator's admission decision:
`data/keywords.json` and `data/candidates.json`. -/
structure PipelineState where
  keywordQueue : List String
  candidates : List Candidate
deriving DecidableEq

/-- `getKeywordQueueSize` (pipeline/index.js lines 36-39). -/
def getKeywordQueueSize (st : PipelineState) : Nat :=
  st.keywordQueue.length

/-- Number of candidates in non-terminal (`collected` / `researched`)
states; the quantity named by the spec's Admission Controller contract. -/
def pendingCandidateCount (st : PipelineState) : Nat :=
  (st.candidates.filter
    (fun c => c.status = CandidateStatus.collected ∨ c.status = CandidateStatus.researched)).length

/-- `shouldSkipCollector` (pipeline/index.js lines 77-80):
`threshold > 0 && queueSize >= threshold`. -/
def shouldSkipCollector (queueSize : Nat) : Bool :=
  decide (0 < SKIP_COLLECTOR_THRESHOLD) && decide (SKIP_COLLECTOR_THRESHOLD ≤ queueSize)

/-- The collector-skip decision as `main` makes it (pipeline/index.js lines
291-303): a pure predicate of the keyword-queue size. -/
def collectorSkipDecision (st : PipelineState) : Bool :=
  shouldSkipCollector (getKeywordQueueSize st)

/- ===================================================================
   §7  Generator (src/automation/generator/index.js)
   =================================================================== -/

/-- A generated article sub-section (`sec.subSections[k]`). -/
structure SubSection where
  body : String
deriving DecidableEq

/-- A generated article section. -/
structure ArticleSection where
  heading : String
  subSections : List SubSection
deriving DecidableEq

/-- A generated article payload, restricted to the fields the validation
predicate and the success path touch. -/
structure Article where
  title : String
  summary : String
  intro : String
  conclusion : String
  sections : List ArticleSection
deriving DecidableEq

/-- `totalLength` inside `validateArticlePayload`: intro + conclusion +
per-section heading and sub-section bodies. -/
def totalLength (a : Article) : Nat :=
  a.intro.length + a.conclusion.length +
    (a.sections.map
      (fun sec => sec.heading.length +
        (sec.subSections.map (fun sub => sub.body.length)).sum)).sum

/-- `validateArticlePayload` (generator/index.js lines 71-109).  A thrown
`Error` is modelled as `Except.error` with the thrown message.  (The JS
falsiness checks on `title`/`summary`/`intro` coincide with the length
checks, since only the empty string is falsy among strings.) -/
def validateArticlePayload (a : Article) : Except String Unit :=
  if a.title.length < 10 then Except.error "article title too short"
  else if a.summary.length < 100 then Except.error "article summary too short"
  else if a.intro.length < 300 then Except.error "article intro too short"
  else if a.sections.isEmpty then Except.error "article sections missing"
  else if !(a.sections.any
      (fun sec => sec.subSections.any (fun sub => 200 ≤ sub.body.length))) then
    Except.error "article sections too thin"
  else if totalLength a < 1800 then Except.error "article total length too short"
  else Except.ok ()

/-- A published post, restricted to its title (all `isDuplicateTopic` reads). -/
structure Post where
  title : String
deriving DecidableEq

/-- A topic-history entry (`data/topic-history.json`).  `lastPublishedAt`
and `firstSeen` are epoch timestamps in milliseconds. -/
structure TopicHistoryEntry where
  topicKey : String
  firstSeen : Int
  lastPublishedAt : Option Int
deriving DecidableEq

/-- Milliseconds per day (`24 * 60 * 60 * 1000`). -/
def msPerDay : Int := 24 * 60 * 60 * 1000

/-- `isDuplicateTopic` (generator/index.js lines 230-247): the topic key is a
duplicate when some published post's slugified title equals it, or some
history entry for the same key has `lastPublishedAt || firstSeen` at or after
`now - DEDUPE_WINDOW_DAYS` days.  (Valid timestamps are assumed; the JS
`Number.isNaN` guard is vacuous for them.) -/
def isDuplicateTopic (now : Int) (topicKey : String)
    (posts : List Post) (history : List TopicHistoryEntry) : Bool :=
  let cutoff := now - (DEDUPE_WINDOW_DAYS : Int) * msPerDay
  if posts.any (fun p => slugify p.title "ai-topic" = topicKey) then true
  else
    history.any (fun e =>
      e.topicKey = topicKey && decide (cutoff ≤ e.lastPublishedAt.getD e.firstSeen))

/-- The parameters of `requestArticleDraft` that vary between attempts. -/
structure GenParams where
  forceLongSummary : Bool
  forceLongIntro : Bool
deriving DecidableEq

/-- The parameters used on generation attempt `n` (generator/index.js lines
413-416): `forceLongSummary: attempts >= 2, forceLongIntro: attempts >= 2`. -/
def genParamsFor (n : Nat) : GenParams :=
  ⟨decide (2 ≤ n), decide (2 ≤ n)⟩

/-- `maxAttempts` of the generation loop (generator/index.js line 408). -/
def maxGenAttempts : Nat := 2

/-- One generation attempt: call the draft request (modelled as an oracle
from attempt number and parameters to a raw result) and validate the
payload; any thrown error surfaces as `Except.error`. -/
def genAttempt (request : Nat → GenParams → Except String Article) (n : Nat) :
    Except String Article :=
  match request n (genParamsFor n) with
  | Except.error e => Except.error e
  | Except.ok a =>
    match validateArticlePayload a with
    | Except.error e => Except.error e
    | Except.ok _ => Except.ok a

/-- Outcome of the bounded generation loop, with the number of attempts
that were made. -/
inductive GenLoopResult where
  | success (article : Article) (attempts : Nat)
  | failure (err : String) (attempts : Nat)
deriving DecidableEq

/-- The `while (attempts < maxAttempts)` retry loop (generator/index.js
lines 405-453): `fuel` is `maxAttempts - attempts`.  On a caught error the
loop returns the failure result exactly when the attempt just made was the
last one. -/
def genLoop (request : Nat → GenParams → Except String Article) :
    Nat → Nat → GenLoopResult
  | attempts, 0 => GenLoopResult.failure "" attempts
  | attempts, fuel + 1 =>
    let n := attempts + 1
    match genAttempt request n with
    | Except.ok a => GenLoopResult.success a n
    | Except.error e =>
      if fuel = 0 then GenLoopResult.failure e n else genLoop request n fuel

/-- The generation loop as entered by `runGenerator`. -/
def runGenerationAttempts (request : Nat → GenParams → Except String Article) :
    GenLoopResult :=
  genLoop request 0 maxGenAttempts

/-- Attempt count of a loop outcome. -/
def genAttemptsUsed : GenLoopResult → Nat
  | GenLoopResult.success _ n => n
  | GenLoopResult.failure _ n => n

/-- The stage result `runGenerator` resolves with, restricted to the fields
the claims touch. -/
structure GeneratorResult where
  generated : Bool
  reason : Option String
  candidate : Candidate
deriving DecidableEq

/-- The generation phase of `runGenerator` for one non-duplicate candidate
(generator/index.js lines 405-470).  On exhausted attempts the candidate is
rewritten to `failed` with `failReason: 'article-generation-error'` and the
stage resolves with `generated: false, reason: 'article-generation-failed'`.
On a validated payload the success path immediately evaluates the identifier
`DEFAULT_POST_STATUS` (line 457), which is not defined or imported anywhere
in the repository, so by JavaScript semantics a `ReferenceError` is thrown;
the interim tag normalization is total and cannot avoid it. -/
def runGeneratorOnCandidate (c : Candidate)
    (request : Nat → GenParams → Except String Article) :
    Except String GeneratorResult :=
  match runGenerationAttempts request with
  | GenLoopResult.failure _ _ =>
    Except.ok
      { generated := false
        reason := some "article-generation-failed"
        candidate :=
          { c with status := CandidateStatus.failed
                   failReason := some "article-generation-error" } }
  | GenLoopResult.success _ _ =>
    Except.error "ReferenceError: DEFAULT_POST_STATUS is not defined"

/- ===================================================================
   §8  Researcher (src/automation/researcher/index.js)
   =================================================================== -/

/-- The JSON object parsed from the theme-deduplication completion. -/
structure ThemeJudgment where
  duplicate : Option Bool
  reason : Option String
  matchedTitle : Option String
deriving DecidableEq

/-- The verdict `judgeThemeDuplicate` returns. -/
structure ThemeCheckResult where
  duplicate : Bool
  reason : String
  matchedTitle : Option String
deriving DecidableEq

/-- JavaScript `a || b` for an optional string (empty string is falsy). -/
def jsStringOr (s : Option String) (fallback : String) : String :=
  match s with
  | some r => if r = "" then fallback else r
  | none => fallback

/-- JavaScript `a || null` for an optional string. -/
def jsStringOrNull (s : Option String) : Option String :=
  match s with
  | some r => if r = "" then none else some r
  | none => none

/-- `judgeThemeDuplicate` (researcher/index.js lines 90-124).  The OpenAI
call together with JSON parsing is modelled as an oracle of type
`Except String ThemeJudgment`; its `Except.error` case is what the JS
`try/catch` catches.  A missing API key is thrown (uncaught). -/
def judgeThemeDuplicate (videoTitle : String) (recentTitles : List String)
    (apiKey : Option String) (call : Except String ThemeJudgment) :
    Except String ThemeCheckResult :=
  if videoTitle = "" then
    Except.ok ⟨false, "タイトルなし", none⟩
  else if apiKey = none then
    Except.error "OPENAI_API_KEY が設定されていません。"
  else if recentTitles.isEmpty then
    Except.ok ⟨false, "直近記事なし", none⟩
  else
    match call with
    | Except.ok parsed =>
      let dup := parsed.duplicate = some true
      Except.ok
        ⟨dup,
         jsStringOr parsed.reason (if dup then "重複と判定" else "非重複と判定"),
         jsStringOrNull parsed.matchedTitle⟩
    | Except.error e =>
      Except.ok ⟨true, "判定失敗: " ++ e, none⟩

/-- The theme-duplicate branch of the `runResearcher` candidate loop
(researcher/index.js lines 197-220): a positive verdict rewrites the
candidate to `skipped` with `skipReason: 'theme-duplicate'` and the
candidate is not carried forward. -/
def applyThemeCheck (c : Candidate) (check : ThemeCheckResult) : Candidate :=
  if check.duplicate then
    { c with status := CandidateStatus.skipped, skipReason := some "theme-duplicate" }
  else c

/- ===================================================================
   §9  Orchestrator run loop (pipeline/index.js, `main`)
   =================================================================== -/

/-- `maxAttempts` of `main` (pipeline/index.js line 259):
`Math.max(targetArticles * 2, targetArticles + 1)`. -/
def maxAttemptsOf (target : Nat) : Nat :=
  max (target * 2) (target + 1)

/-- One iteration's observable outcome for the run loop, abstracting stages
2-5 of an attempt: `none` models the `break` on an exhausted keyword queue,
`some true` a published article, `some false` an attempt that did not
publish. -/
def AttemptOutcome : Type := Nat → Option Bool

/-- The `while (publishedCount < targetArticles && attempts < maxAttempts)`
loop of `main` (pipeline/index.js lines 305-362), with `fuel` equal to
`maxAttempts - attempts`.  Returns the final `(publishedCount, attempts)`. -/
def runLoopAux (target : Nat) (f : AttemptOutcome) :
    Nat → Nat → Nat → Nat × Nat
  | published, attempts, 0 => (published, attempts)
  | published, attempts, fuel + 1 =>
    if target ≤ published then (published, attempts)
    else
      match f (attempts + 1) with
      | none => (published, attempts + 1)
      | some true => runLoopAux target f (published + 1) (attempts + 1) fuel
      | some false => runLoopAux target f published (attempts + 1) fuel

/-- The run loop as entered by `main`: counters start at zero and the
attempt budget is `maxAttemptsOf target`.  (`main` guarantees
`1 ≤ target` via `Math.max(1, ...)`.) -/
def runPipelineLoop (target : Nat) (f : AttemptOutcome) : Nat × Nat :=
  runLoopAux target f 0 0 (maxAttemptsOf target)


/- ===================================================================
   §10  Reference definitions taken from the spec's words
   (used only on the specification side of refinement claims)
   =================================================================== -/

/-- Reference similarity from the spec's words (§4.2.2): "similarity =
`1 - distance/max(len1,len2)`" with `distance` the Levenshtein distance. -/
def specSimilarity (a b : List Char) : ℚ :=
  1 - (lev a b : ℚ) / (max a.length b.length : ℚ)

/-- Reference fuzzy-duplicate decision from the spec's words: "a pair is
treated as a duplicate when similarity > 0.80 and both slugs exceed 5
characters". -/
def specFuzzyDuplicate (a b : List Char) : Prop :=
  4 / 5 < specSimilarity a b ∧ 5 < a.length ∧ 5 < b.length

/- ===================================================================
   §11  Concrete instances used to instantiate theorems
   =================================================================== -/

/-- A generic researched candidate. -/
def sampleCandidate : Candidate :=
  { id := "cand-1", status := CandidateStatus.researched }

/-- A payload satisfying every validation bound of
`validateArticlePayload`. -/
def validSampleArticle : Article :=
  { title := String.mk (List.replicate 10 't')
    summary := String.mk (List.replicate 100 's')
    intro := String.mk (List.replicate 300 'i')
    conclusion := ""
    sections := [⟨"", [⟨String.mk (List.replicate 1600 'b')⟩]⟩] }

/-- A draft oracle that always returns `validSampleArticle`. -/
def constantDraftOracle : Nat → GenParams → Except String Article :=
  fun _ _ => Except.ok validSampleArticle

/-- A draft oracle that always fails. -/
def failingDraftOracle : Nat → GenParams → Except String Article :=
  fun _ _ => Except.error "network error"

/-- A queue holding exactly `QUEUE_LIMIT` keywords with pairwise distinct
slugs, as `enqueueKeywords` would have built it by successive appends. -/
def sampleFullQueue : List String :=
  ["kw01", "kw02", "kw03", "kw04", "kw05", "kw06", "kw07", "kw08", "kw09", "kw10",
   "kw11", "kw12", "kw13", "kw14", "kw15", "kw16", "kw17", "kw18", "kw19", "kw20",
   "kw21", "kw22", "kw23", "kw24", "kw25", "kw26", "kw27", "kw28", "kw29", "kw30",
   "kw31", "kw32", "kw33", "kw34", "kw35", "kw36", "kw37", "kw38", "kw39", "kw40"]

/- ===================================================================
   Theorems.  First the Levenshtein theory: the DP matrix of
   `calculateSimilarity` computes the reference Levenshtein distance
   (also matching Mathlib's `levenshtein` under the default cost).
   =================================================================== -/



theorem lev_nil_left (ys : List Char) : lev [] ys = ys.length := by
  simp [lev]

theorem lev_nil_right (xs : List Char) : lev xs [] = xs.length := by
  cases xs <;> simp [lev]

theorem lev_cons_cons (x y : Char) (xs ys : List Char) :
    lev (x :: xs) (y :: ys) =
      min (lev xs (y :: ys) + 1)
        (min (lev (x :: xs) ys + 1) (lev xs ys + levCost x y)) := by
  rw [lev]

theorem lev_concat (x y : Char) :
    ∀ (n : Nat) (xs ys : List Char), xs.length + ys.length ≤ n →
      lev (xs ++ [x]) (ys ++ [y]) =
        min (lev xs (ys ++ [y]) + 1)
          (min (lev (xs ++ [x]) ys + 1) (lev xs ys + levCost x y)) := by
  intro n
  induction n with
  | zero =>
    intro xs ys h
    match xs, ys with
    | [], [] =>
      simp only [List.nil_append, lev_cons_cons, lev_nil_left, lev_nil_right]
    | a :: xs, ys => simp at h
    | [], b :: ys => simp at h
  | succ n ih =>
    intro xs ys h
    match xs, ys with
    | [], [] =>
      simp only [List.nil_append, lev_cons_cons, lev_nil_left, lev_nil_right]
    | [], b :: ys =>
      have h1 := ih [] ys (by simp at h ⊢; omega)
      simp only [List.nil_append, List.cons_append] at h1 ⊢
      simp only [lev_cons_cons, lev_nil_left, lev_nil_right, List.length_append,
        List.length_cons, List.length_nil] at h1 ⊢
      rw [h1]
      apply le_antisymm <;> simp only [le_min_iff, min_le_iff] <;> omega
    | a :: xs, [] =>
      have h1 := ih xs [] (by simp at h ⊢; omega)
      simp only [List.nil_append, List.cons_append] at h1 ⊢
      simp only [lev_cons_cons, lev_nil_left, lev_nil_right, List.length_append,
        List.length_cons, List.length_nil] at h1 ⊢
      rw [h1]
      apply le_antisymm <;> simp only [le_min_iff, min_le_iff] <;> omega
    | a :: xs, b :: ys =>
      have h1 := ih xs (b :: ys) (by simp at h ⊢; omega)
      have h2 := ih (a :: xs) ys (by simp at h ⊢; omega)
      have h3 := ih xs ys (by simp at h ⊢; omega)
      simp only [List.cons_append] at h1 h2 h3 ⊢
      simp only [lev_cons_cons] at h1 h2 h3 ⊢
      rw [h1, h2, h3]
      generalize lev xs (b :: (ys ++ [y])) = A
      generalize lev (a :: xs) (ys ++ [y]) = B
      generalize lev xs (ys ++ [y]) = C
      generalize lev (xs ++ [x]) (b :: ys) = D
      generalize lev (a :: (xs ++ [x])) ys = F
      generalize lev (xs ++ [x]) ys = G
      generalize lev xs (b :: ys) = P
      generalize lev (a :: xs) ys = Q
      generalize lev xs ys = R
      generalize levCost x y = c1
      generalize levCost a b = c2
      apply le_antisymm <;> simp only [le_min_iff, min_le_iff] <;> omega



theorem lev_reverse : ∀ (n : Nat) (xs ys : List Char), xs.length + ys.length ≤ n →
    lev xs.reverse ys.reverse = lev xs ys := by
  intro n
  induction n with
  | zero =>
    intro xs ys h
    match xs, ys with
    | [], [] => rfl
    | a :: xs, ys => simp at h
    | [], b :: ys => simp at h
  | succ n ih =>
    intro xs ys h
    match xs, ys with
    | [], ys => simp [lev_nil_left]
    | a :: xs, [] => simp [lev_nil_right]
    | a :: xs, b :: ys =>
      have e1 : lev xs.reverse (ys.reverse ++ [b]) = lev xs (b :: ys) := by
        rw [← List.reverse_cons]
        exact ih xs (b :: ys) (by simp at h ⊢; omega)
      have e2 : lev (xs.reverse ++ [a]) ys.reverse = lev (a :: xs) ys := by
        rw [← List.reverse_cons]
        exact ih (a :: xs) ys (by simp at h ⊢; omega)
      have e3 : lev xs.reverse ys.reverse = lev xs ys :=
        ih xs ys (by simp at h ⊢; omega)
      calc lev (a :: xs).reverse (b :: ys).reverse
          = lev (xs.reverse ++ [a]) (ys.reverse ++ [b]) := by
            rw [List.reverse_cons, List.reverse_cons]
        _ = min (lev xs.reverse (ys.reverse ++ [b]) + 1)
              (min (lev (xs.reverse ++ [a]) ys.reverse + 1)
                (lev xs.reverse ys.reverse + levCost a b)) :=
            lev_concat a b (xs.reverse.length + ys.reverse.length) xs.reverse ys.reverse le_rfl
        _ = min (lev xs (b :: ys) + 1)
              (min (lev (a :: xs) ys + 1) (lev xs ys + levCost a b)) := by
            rw [e1, e2, e3]
        _ = lev (a :: xs) (b :: ys) := (lev_cons_cons a b xs ys).symm

theorem lev_reverse_eq (xs ys : List Char) : lev xs.reverse ys.reverse = lev xs ys :=
  lev_reverse (xs.length + ys.length) xs ys le_rfl

theorem levMatrix_zero_left (s1 s2 : List Char) (j : Nat) : levMatrix s1 s2 0 j = j := by
  rw [levMatrix]

theorem levMatrix_succ_zero (s1 s2 : List Char) (i : Nat) : levMatrix s1 s2 (i + 1) 0 = i + 1 := by
  rw [levMatrix]

theorem levMatrix_succ_succ (s1 s2 : List Char) (i j : Nat) :
    levMatrix s1 s2 (i + 1) (j + 1) =
      min (levMatrix s1 s2 i (j + 1) + 1)
        (min (levMatrix s1 s2 (i + 1) j + 1)
          (levMatrix s1 s2 i j + levCost (s1.getD i ' ') (s2.getD j ' '))) := by
  rw [levMatrix]

theorem levMatrix_eq_lev (s1 s2 : List Char) :
    ∀ (n i j : Nat), i + j ≤ n → i ≤ s1.length → j ≤ s2.length →
      levMatrix s1 s2 i j = lev (s1.take i).reverse (s2.take j).reverse := by
  intro n
  induction n with
  | zero =>
    intro i j hij hi hj
    match i, j with
    | 0, 0 => simp [levMatrix_zero_left, lev_nil_left]
    | i + 1, j => omega
    | 0, j + 1 => omega
  | succ n ih =>
    intro i j hij hi hj
    match i, j with
    | 0, j =>
      simp [levMatrix_zero_left, lev_nil_left]
      omega
    | i + 1, 0 =>
      simp [levMatrix_succ_zero, lev_nil_right]
      omega
    | i + 1, j + 1 =>
      have hi1 : i < s1.length := by omega
      have hj1 : j < s2.length := by omega
      have t1 : s1.take (i + 1) = s1.take i ++ [s1[i]] := by
        rw [List.take_succ, List.getElem?_eq_getElem hi1]
        rfl
      have t2 : s2.take (j + 1) = s2.take j ++ [s2[j]] := by
        rw [List.take_succ, List.getElem?_eq_getElem hj1]
        rfl
      rw [levMatrix_succ_succ]
      rw [ih i (j + 1) (by omega) (by omega) hj]
      rw [ih (i + 1) j (by omega) hi (by omega)]
      rw [ih i j (by omega) (by omega) (by omega)]
      rw [t1, t2]
      simp only [List.reverse_append, List.reverse_cons, List.reverse_nil,
        List.nil_append, List.cons_append, List.singleton_append]
      rw [lev_cons_cons]
      rw [List.getD_eq_getElem s1 ' ' hi1, List.getD_eq_getElem s2 ' ' hj1]

theorem levDistance_eq_lev (s1 s2 : List Char) :
    levMatrix s1 s2 s1.length s2.length = lev s1 s2 := by
  rw [levMatrix_eq_lev s1 s2 (s1.length + s2.length) s1.length s2.length le_rfl le_rfl le_rfl]
  rw [List.take_length, List.take_length]
  exact lev_reverse_eq s1 s2



theorem levenshtein_default_nil_left (ys : List Char) :
    levenshtein Levenshtein.defaultCost [] ys = ys.length := by
  induction ys with
  | nil => simp
  | cons y ys ih => simp [ih]; omega

theorem levenshtein_default_nil_right (xs : List Char) :
    levenshtein Levenshtein.defaultCost xs [] = xs.length := by
  induction xs with
  | nil => simp
  | cons x xs ih => simp [ih]; omega

theorem lev_eq_levenshtein : ∀ (n : Nat) (xs ys : List Char), xs.length + ys.length ≤ n →
    lev xs ys = levenshtein Levenshtein.defaultCost xs ys := by
  intro n
  induction n with
  | zero =>
    intro xs ys h
    match xs, ys with
    | [], [] => simp [lev_nil_left]
    | a :: xs, ys => simp at h
    | [], b :: ys => simp at h
  | succ n ih =>
    intro xs ys h
    match xs, ys with
    | [], ys => simp [lev_nil_left, levenshtein_default_nil_left]
    | a :: xs, [] => simp [lev_nil_right, levenshtein_default_nil_right]; omega
    | a :: xs, b :: ys =>
      rw [lev_cons_cons, levenshtein_cons_cons]
      rw [ih xs (b :: ys) (by simp at h ⊢; omega)]
      rw [ih (a :: xs) ys (by simp at h ⊢; omega)]
      rw [ih xs ys (by simp at h ⊢; omega)]
      simp only [Levenshtein.defaultCost, levCost]
      generalize levenshtein Levenshtein.defaultCost xs (b :: ys) = A
      generalize levenshtein Levenshtein.defaultCost (a :: xs) ys = B
      generalize levenshtein Levenshtein.defaultCost xs ys = C
      rcases Decidable.em (a = b) with hab | hab <;> simp [hab] <;> omega

theorem lev_eq_levenshtein_eq (xs ys : List Char) :
    lev xs ys = levenshtein Levenshtein.defaultCost xs ys :=
  lev_eq_levenshtein (xs.length + ys.length) xs ys le_rfl


/- ===================================================================
   Helper theorems shared by the claim theorems below
   =================================================================== -/

theorem calculateSimilarity_eq_spec (a b : List Char)
    (h : max a.length b.length ≠ 0) :
    calculateSimilarity a b = specSimilarity a b := by
  unfold calculateSimilarity specSimilarity
  rw [if_neg h, levDistance_eq_lev]

theorem toList_length (s : String) : s.toList.length = s.length := rfl

theorem runGenerationAttempts_eq (request : Nat → GenParams → Except String Article) :
    runGenerationAttempts request =
      match genAttempt request 1 with
      | Except.ok a => GenLoopResult.success a 1
      | Except.error _ =>
        match genAttempt request 2 with
        | Except.ok a => GenLoopResult.success a 2
        | Except.error e2 => GenLoopResult.failure e2 2 := by
  rfl

theorem runLoopAux_spec (target : Nat) (f : AttemptOutcome) :
    ∀ (fuel published attempts : Nat), published ≤ target →
      (runLoopAux target f published attempts fuel).2 ≤ attempts + fuel ∧
      (runLoopAux target f published attempts fuel).1 ≤ target ∧
      ((runLoopAux target f published attempts fuel).1 = target ∨
       (runLoopAux target f published attempts fuel).2 = attempts + fuel ∨
       f (runLoopAux target f published attempts fuel).2 = none) := by
  intro fuel
  induction fuel with
  | zero =>
    intro p a hp
    simp only [runLoopAux]
    omega
  | succ fuel ih =>
    intro p a hp
    simp only [runLoopAux]
    split_ifs with htgt
    · refine ⟨by omega, hp, Or.inl (by omega)⟩
    · rcases hf : f (a + 1) with _ | b
      · dsimp only
        refine ⟨by omega, hp, Or.inr (Or.inr ?_)⟩
        simpa using hf
      · cases b
        · dsimp only
          have h := ih p (a + 1) hp
          refine ⟨by omega, h.2.1, ?_⟩
          rcases h.2.2 with h1 | h1 | h1
          · exact Or.inl h1
          · exact Or.inr (Or.inl (by omega))
          · exact Or.inr (Or.inr h1)
        · dsimp only
          have h := ih (p + 1) (a + 1) (by omega)
          refine ⟨by omega, h.2.1, ?_⟩
          rcases h.2.2 with h1 | h1 | h1
          · exact Or.inl h1
          · exact Or.inr (Or.inl (by omega))
          · exact Or.inr (Or.inr h1)

/- ===================================================================
   Claim theorems
   =================================================================== -/

/-- C1: the fuzzy slug-duplicate decision of `consumeKeyword` equals the
spec's reference definition — similarity is `1 -` Levenshtein distance over
the longer slug's length, and a pair is judged duplicate exactly when that
similarity is strictly greater than 0.80 and both slugs are strictly longer
than 5 characters; when either slug has length 5 or less the fuzzy check
never fires. -/
theorem c1_fuzzy_duplicate_matches_reference (itemSlug existing : String) :
    (fuzzySlugDuplicate itemSlug existing = true ↔
      specFuzzyDuplicate itemSlug.toList existing.toList) ∧
    (itemSlug.length ≤ 5 ∨ existing.length ≤ 5 →
      fuzzySlugDuplicate itemSlug existing = false) := by
  constructor
  · by_cases hlen : 5 < itemSlug.length ∧ 5 < existing.length
    · have hmax : max itemSlug.toList.length existing.toList.length ≠ 0 := by
        rw [toList_length, toList_length]; omega
      simp only [fuzzySlugDuplicate, if_pos hlen, decide_eq_true_eq]
      rw [calculateSimilarity_eq_spec _ _ hmax]
      unfold specFuzzyDuplicate
      rw [toList_length, toList_length]
      constructor
      · intro hs
        exact ⟨hs, hlen.1, hlen.2⟩
      · intro hs
        exact hs.1
    · simp only [fuzzySlugDuplicate, if_neg hlen]
      constructor
      · intro hfalse
        simp at hfalse
      · intro hs
        unfold specFuzzyDuplicate at hs
        rw [toList_length, toList_length] at hs
        exact absurd ⟨hs.2.1, hs.2.2⟩ hlen
  · intro hshort
    have hnot : ¬ (5 < itemSlug.length ∧ 5 < existing.length) := by omega
    simp [fuzzySlugDuplicate, if_neg hnot]

/-- C1 witness: at the short slugs "ai" and "ml" the side condition holds and
the fuzzy check does not fire. -/
theorem c1_fuzzy_duplicate_matches_reference_witness :
    ("ai".length ≤ 5 ∨ "ml".length ≤ 5) ∧ fuzzySlugDuplicate "ai" "ml" = false :=
  ⟨by decide, (c1_fuzzy_duplicate_matches_reference "ai" "ml").2 (by decide)⟩

/-- C2: whenever some generation attempt passes validation,
`runGeneratorOnCandidate` raises the `ReferenceError` for the undefined
identifier `DEFAULT_POST_STATUS` instead of returning a result, so no
returned result ever has `generated = true`. -/
theorem c2_generator_success_path_unreachable
    (c : Candidate) (request : Nat → GenParams → Except String Article) :
    ((∃ a n, runGenerationAttempts request = GenLoopResult.success a n) →
      runGeneratorOnCandidate c request =
        Except.error "ReferenceError: DEFAULT_POST_STATUS is not defined") ∧
    (∀ r, runGeneratorOnCandidate c request = Except.ok r → r.generated = false) := by
  constructor
  · rintro ⟨a, m, hsucc⟩
    unfold runGeneratorOnCandidate
    rw [hsucc]
  · intro r hr
    unfold runGeneratorOnCandidate at hr
    rcases hres : runGenerationAttempts request with ⟨a2, n2⟩ | ⟨e2, n2⟩
    · rw [hres] at hr
      cases hr
    · rw [hres] at hr
      cases hr
      rfl

set_option maxRecDepth 100000 in
/-- C2 witness: a draft oracle returning a payload that passes every
validation bound makes the generator raise the `ReferenceError`. -/
theorem c2_generator_success_path_unreachable_witness :
    (∃ a n, runGenerationAttempts constantDraftOracle = GenLoopResult.success a n) ∧
    runGeneratorOnCandidate sampleCandidate constantDraftOracle =
      Except.error "ReferenceError: DEFAULT_POST_STATUS is not defined" :=
  ⟨⟨validSampleArticle, 1, rfl⟩,
    (c2_generator_success_path_unreachable sampleCandidate constantDraftOracle).1
      ⟨validSampleArticle, 1, rfl⟩⟩

/-- C3 counterexample: with queue `["Gemini 3 release",
"gemini-3-release-info"]` and no published articles, `consumeKeyword` does
NOT rewrite the queue to be empty as the claim states — the second entry is
not dropped. -/
theorem c3_second_entry_kept_counterexample :
    consumeKeyword ["Gemini 3 release", "gemini-3-release-info"] [] ≠
      some ("Gemini 3 release", []) := by
  decide

/-- C3 (amended): in that scenario `consumeKeyword` returns
`"Gemini 3 release"` and rewrites the queue to
`["gemini-3-release-info"]` (remaining count 1): in-queue deduplication is
by exact slug only, and the fuzzy check compares only against published
slugs, of which there are none. -/
theorem c3_consume_scenario :
    consumeKeyword ["Gemini 3 release", "gemini-3-release-info"] [] =
      some ("Gemini 3 release", ["gemini-3-release-info"]) := by
  decide

/-- C4 counterexample: with 20 queued keywords and no candidate records at
all, the collector is skipped even though the count of candidates in
non-terminal states (0) is far below the threshold — the skip decision does
not equal the claimed pending-candidate predicate. -/
theorem c4_skip_ignores_pending_candidates_counterexample :
    collectorSkipDecision ⟨List.replicate 20 "k", []⟩ = true ∧
    pendingCandidateCount ⟨List.replicate 20 "k", []⟩ = 0 ∧
    collectorSkipDecision ⟨List.replicate 20 "k", []⟩ ≠
      decide (SKIP_COLLECTOR_THRESHOLD ≤ pendingCandidateCount ⟨List.replicate 20 "k", []⟩) := by
  refine ⟨by decide, by decide, by decide⟩

/-- C4 (amended): the collector stage is skipped exactly when the keyword
queue's length meets or exceeds the configured threshold (20); the decision
is a pure predicate of the queue size and the threshold. -/
theorem c4_skip_iff_queue_at_threshold (st : PipelineState) :
    collectorSkipDecision st = true ↔
      SKIP_COLLECTOR_THRESHOLD ≤ getKeywordQueueSize st := by
  simp [collectorSkipDecision, shouldSkipCollector, SKIP_COLLECTOR_THRESHOLD]

/-- C5 (code bug): `enqueueKeywords` appends newly discovered keywords at
the TAIL of the queue, and the trimming step keeps the head, so at the
failing input — a queue at the 40-entry limit plus one newly enqueued
keyword — trimming drops the most recently discovered keyword, contrary to
the claim (and to the source's own comments) that the tail holds the oldest
insertions and the most recent keywords are preserved. -/
theorem c5_trim_drops_most_recent_keyword :
    enqueueKeywords sampleFullQueue [] ["fresh keyword"] =
      sampleFullQueue ++ ["fresh keyword"] ∧
    trimQueueWith QUEUE_LIMIT (sampleFullQueue ++ ["fresh keyword"]) = sampleFullQueue ∧
    ¬ "fresh keyword" ∈ trimQueueWith QUEUE_LIMIT (sampleFullQueue ++ ["fresh keyword"]) := by
  refine ⟨by decide, by decide, by decide⟩

/-- C6: for a non-empty candidate title and a non-empty recent-titles list,
a failing semantic judgment call makes `judgeThemeDuplicate` return a
`duplicate = true` verdict (fail-closed) rather than propagate the error,
and the candidate is consequently marked `skipped` with reason
`theme-duplicate`. -/
theorem c6_theme_judgment_fail_closed
    (videoTitle : String) (recentTitles : List String) (apiKey : String)
    (errMsg : String) (c : Candidate) :
    videoTitle ≠ "" → recentTitles ≠ [] →
    ∃ r, judgeThemeDuplicate videoTitle recentTitles (some apiKey) (Except.error errMsg) =
        Except.ok r ∧
      r.duplicate = true ∧
      (applyThemeCheck c r).status = CandidateStatus.skipped ∧
      (applyThemeCheck c r).skipReason = some "theme-duplicate" := by
  intro ht hr
  refine ⟨⟨true, "判定失敗: " ++ errMsg, none⟩, ?_, rfl, ?_, ?_⟩
  · have hemp : recentTitles.isEmpty = false := by
      cases recentTitles with
      | nil => exact absurd rfl hr
      | cons a l => rfl
    simp [judgeThemeDuplicate, ht, hemp]
  · simp [applyThemeCheck]
  · simp [applyThemeCheck]

/-- C6 witness: concrete title, recent titles and a network error. -/
theorem c6_theme_judgment_fail_closed_witness :
    (("Gemini 3" : String) ≠ "" ∧ (["Recent title"] : List String) ≠ []) ∧
    ∃ r, judgeThemeDuplicate "Gemini 3" ["Recent title"] (some "key")
          (Except.error "network error") = Except.ok r ∧
      r.duplicate = true ∧
      (applyThemeCheck sampleCandidate r).status = CandidateStatus.skipped ∧
      (applyThemeCheck sampleCandidate r).skipReason = some "theme-duplicate" :=
  ⟨⟨by decide, by decide⟩,
    c6_theme_judgment_fail_closed "Gemini 3" ["Recent title"] "key" "network error"
      sampleCandidate (by decide) (by decide)⟩

/-- C7: the generation stage makes at most 2 attempts; the first attempt
uses plain parameters and the second the longer-summary/intro parameters;
the loop result depends only on the oracle's values at those two calls (so
no third attempt is ever consulted); and when both attempts fail the
candidate is rewritten to the terminal `failed` state with
`failReason = article-generation-error`. -/
theorem c7_bounded_generation_attempts
    (c : Candidate) (request request2 : Nat → GenParams → Except String Article) :
    genAttemptsUsed (runGenerationAttempts request) ≤ 2 ∧
    (genParamsFor 1 = ⟨false, false⟩ ∧ genParamsFor 2 = ⟨true, true⟩) ∧
    (request2 1 (genParamsFor 1) = request 1 (genParamsFor 1) →
      request2 2 (genParamsFor 2) = request 2 (genParamsFor 2) →
      runGenerationAttempts request2 = runGenerationAttempts request) ∧
    (∀ e1 e2, genAttempt request 1 = Except.error e1 → genAttempt request 2 = Except.error e2 →
      runGeneratorOnCandidate c request =
        Except.ok { generated := false, reason := some "article-generation-failed",
                    candidate := { c with status := CandidateStatus.failed,
                                          failReason := some "article-generation-error" } }) := by
  refine ⟨?_, ⟨rfl, rfl⟩, ?_, ?_⟩
  · rw [runGenerationAttempts_eq]
    rcases genAttempt request 1 with e1 | a1
    · rcases genAttempt request 2 with e2 | a2
      · simp [genAttemptsUsed]
      · simp [genAttemptsUsed]
    · simp [genAttemptsUsed]
  · intro h1 h2
    rw [runGenerationAttempts_eq, runGenerationAttempts_eq]
    simp only [genAttempt, h1, h2]
  · intro e1 e2 h1 h2
    simp only [runGeneratorOnCandidate, runGenerationAttempts_eq, h1, h2]

/-- C7 witness: with an always-failing draft oracle, both attempts fail and
the candidate ends in the terminal `failed` state. -/
theorem c7_bounded_generation_attempts_witness :
    (genAttempt failingDraftOracle 1 = Except.error "network error" ∧
     genAttempt failingDraftOracle 2 = Except.error "network error") ∧
    runGeneratorOnCandidate sampleCandidate failingDraftOracle =
      Except.ok { generated := false, reason := some "article-generation-failed",
                  candidate := { sampleCandidate with
                                  status := CandidateStatus.failed,
                                  failReason := some "article-generation-error" } } :=
  ⟨⟨rfl, rfl⟩,
    (c7_bounded_generation_attempts sampleCandidate failingDraftOracle
        failingDraftOracle).2.2.2 "network error" "network error" rfl rfl⟩

/-- C8: `validateArticlePayload` accepts a payload exactly when the title
has at least 10 characters, the summary at least 100, the intro at least
300, some section has a sub-body of at least 200 characters, and the
combined body length is at least 1800. -/
theorem c8_validation_accepts_iff (a : Article) :
    validateArticlePayload a = Except.ok () ↔
      (10 ≤ a.title.length ∧ 100 ≤ a.summary.length ∧ 300 ≤ a.intro.length ∧
        (∃ sec ∈ a.sections, ∃ sub ∈ sec.subSections, 200 ≤ sub.body.length) ∧
        1800 ≤ totalLength a) := by
  unfold validateArticlePayload
  split_ifs with h1 h2 h3 h4 h5 h6
  · simp; omega
  · simp; omega
  · simp; omega
  · constructor
    · intro h
      cases h
    · rintro ⟨-, -, -, ⟨sec, hsec, -⟩, -⟩
      rw [List.isEmpty_iff] at h4
      rw [h4] at hsec
      cases hsec
  · constructor
    · intro h
      cases h
    · rintro ⟨-, -, -, ⟨sec, hsec, sub, hsub, hlen⟩, -⟩
      have hany : (a.sections.any fun sec =>
          sec.subSections.any fun sub => decide (200 ≤ sub.body.length)) = true := by
        rw [List.any_eq_true]
        refine ⟨sec, hsec, ?_⟩
        rw [List.any_eq_true]
        exact ⟨sub, hsub, by simpa using hlen⟩
      rw [hany] at h5
      simp at h5
  · simp; omega
  · constructor
    · intro _
      have hany : (a.sections.any fun sec =>
          sec.subSections.any fun sub => decide (200 ≤ sub.body.length)) = true := by
        cases hx : (a.sections.any fun sec =>
            sec.subSections.any fun sub => decide (200 ≤ sub.body.length)) with
        | false => rw [hx] at h5; simp at h5
        | true => rfl
      rw [List.any_eq_true] at hany
      obtain ⟨sec, hsec, hin⟩ := hany
      rw [List.any_eq_true] at hin
      obtain ⟨sub, hsub, hlen⟩ := hin
      exact ⟨by omega, by omega, by omega, ⟨sec, hsec, sub, hsub, by simpa using hlen⟩, by omega⟩
    · intro _
      rfl

/-- C9: at generation time a topic key is rejected exactly when it appears
as a slugified published title, or a topic-history entry with the same key
has its `lastPublishedAt` at or after `now` minus the 5-day window (stated
for histories whose entries all carry a `lastPublishedAt`, as the claim
presumes); in particular a key absent from the post index whose only
history entry is older than the window is not rejected. -/
theorem c9_topic_window_iff (now : Int) (topicKey : String)
    (posts : List Post) (history : List TopicHistoryEntry) :
    (∀ e ∈ history, e.lastPublishedAt ≠ none) →
    (isDuplicateTopic now topicKey posts history = true ↔
      (∃ p ∈ posts, slugify p.title "ai-topic" = topicKey) ∨
      (∃ e ∈ history, e.topicKey = topicKey ∧
        ∃ t, e.lastPublishedAt = some t ∧
          now - (DEDUPE_WINDOW_DAYS : Int) * msPerDay ≤ t)) := by
  intro hall
  unfold isDuplicateTopic
  split_ifs with hp
  · rw [List.any_eq_true] at hp
    obtain ⟨p, hmem, hslug⟩ := hp
    simp only [true_iff]
    exact Or.inl ⟨p, hmem, by simpa using hslug⟩
  · rw [List.any_eq_true] at hp
    constructor
    · intro h
      rw [List.any_eq_true] at h
      obtain ⟨e, hmem, he⟩ := h
      rw [Bool.and_eq_true] at he
      obtain ⟨hkey, htime⟩ := he
      rcases hlp : e.lastPublishedAt with _ | t
      · exact absurd hlp (hall e hmem)
      · refine Or.inr ⟨e, hmem, by simpa using hkey, t, hlp, ?_⟩
        rw [hlp] at htime
        simpa using htime
    · rintro (⟨p, hmem, hslug⟩ | ⟨e, hmem, hkey, t, hlp, ht⟩)
      · exact absurd ⟨p, hmem, by simpa using hslug⟩ hp
      · rw [List.any_eq_true]
        refine ⟨e, hmem, ?_⟩
        rw [Bool.and_eq_true]
        exact ⟨by simpa using hkey, by rw [hlp]; simpa using ht⟩

/-- C9 witness: a single in-window history entry for the key makes the
topic a rejected duplicate. -/
theorem c9_topic_window_iff_witness :
    (∀ e ∈ [TopicHistoryEntry.mk "gemini-3" 0 (some 0)], e.lastPublishedAt ≠ none) ∧
    (isDuplicateTopic 0 "gemini-3" [] [TopicHistoryEntry.mk "gemini-3" 0 (some 0)] = true ↔
      (∃ p ∈ ([] : List Post), slugify p.title "ai-topic" = "gemini-3") ∨
      (∃ e ∈ [TopicHistoryEntry.mk "gemini-3" 0 (some 0)], e.topicKey = "gemini-3" ∧
        ∃ t, e.lastPublishedAt = some t ∧
          (0 : Int) - (DEDUPE_WINDOW_DAYS : Int) * msPerDay ≤ t)) :=
  ⟨by decide,
    c9_topic_window_iff 0 "gemini-3" [] [TopicHistoryEntry.mk "gemini-3" 0 (some 0)]
      (by decide)⟩

/-- C10 counterexample: for target 1 the attempt budget is
`max(2·1, 1+1) = 2`, not `2·1 + 1 = 3`; with a never-publishing,
never-exhausted outcome function the loop stops after 2 attempts although
the published count (0) has not reached the target, the attempt count has
not reached `2T + 1`, and the queue is not exhausted — refuting the claimed
stop condition. -/
theorem c10_budget_counterexample :
    maxAttemptsOf 1 = 2 ∧
    runPipelineLoop 1 (fun _ => some false) = (0, 2) ∧
    ¬ ((runPipelineLoop 1 (fun _ => some false)).1 = 1 ∨
       (runPipelineLoop 1 (fun _ => some false)).2 = 2 * 1 + 1 ∨
       (fun _ => (some false : Option Bool)) (runPipelineLoop 1 (fun _ => some false)).2 = none) := by
  refine ⟨by decide, by decide, by decide⟩

/-- C10 (amended): for every target `T ≥ 1` the budget is
`max(2T, T+1) = 2T`; the loop never makes more than `2T` attempts, never
publishes more than `T`, and stops only because the published count reached
`T`, the attempts reached `2T`, or the keyword queue was exhausted. -/
theorem c10_loop_budget_and_stopping (target : Nat) (f : AttemptOutcome)
    (h : 1 ≤ target) :
    (runPipelineLoop target f).2 ≤ 2 * target ∧
    (runPipelineLoop target f).1 ≤ target ∧
    ((runPipelineLoop target f).1 = target ∨
     (runPipelineLoop target f).2 = 2 * target ∨
     f (runPipelineLoop target f).2 = none) := by
  have hmax : maxAttemptsOf target = 2 * target := by
    unfold maxAttemptsOf
    omega
  have hspec := runLoopAux_spec target f (2 * target) 0 0 (by omega)
  unfold runPipelineLoop
  rw [hmax]
  simpa using hspec

/-- C10 witness: target 1 with an immediately exhausted queue. -/
theorem c10_loop_budget_and_stopping_witness :
    1 ≤ 1 ∧
    ((runPipelineLoop 1 (fun _ => none)).2 ≤ 2 * 1 ∧
     (runPipelineLoop 1 (fun _ => none)).1 ≤ 1 ∧
     ((runPipelineLoop 1 (fun _ => none)).1 = 1 ∨
      (runPipelineLoop 1 (fun _ => none)).2 = 2 * 1 ∨
      (fun _ => (none : Option Bool)) (runPipelineLoop 1 (fun _ => none)).2 = none)) :=
  ⟨le_refl 1, c10_loop_budget_and_stopping 1 (fun _ => none) (le_refl 1)⟩

end AISite
